import Mathlib

/-!
Shallow embedding of the tei-publisher component layer found in
src/pb-page.js (the components PbPage and PbSelect) together with the
refresh protocol of the document viewer described in the specification.
DOM rendering, CSS and the third-party dropdown widget are presentational
and not part of the model; the model covers component state, the custom
events the components emit, and the observable effect of remote fetches.
-/

/-- Custom events travelling over the shared document (the event bus):
pb-page-ready carries the endpoint in its detail, pb-end-update is the
terminal event of a render cycle, changeEvent models the plain change
event dispatched by PbSelect. -/
inductive Event where
  | pbPageReady (endpoint : String)
  | pbEndUpdate
  | changeEvent
deriving DecidableEq, Repr

/-- State of the pb-page component: properties app-root, template and
endpoint, as declared in its properties block. -/
structure PbPage where
  appRoot : Option String
  template : Option String
  endpoint : String
deriving DecidableEq, Repr

/-- Constructor of PbPage: sets endpoint to the string "." and leaves the
other properties unset. -/
def PbPage.new : PbPage :=
  { appRoot := none, template := none, endpoint := "." }

/-- connectedCallback of PbPage: signals readiness by emitting
pb-page-ready whose detail carries the current endpoint value. The state
is unchanged; the emitted events are returned alongside it. -/
def PbPage.connectedCallback (p : PbPage) : PbPage × List Event :=
  (p, [Event.pbPageReady p.endpoint])

/-- The hidden form input created by PbSelect.connectedCallback; its value
mirrors what would be submitted with a surrounding form. -/
structure HiddenInput where
  typ : String
  name : Option String
  value : Option String
  slot : String
deriving DecidableEq, Repr

/-- An option item of the select list (label and value). -/
structure Item where
  label : String
  value : String
deriving DecidableEq, Repr

/-- State of the pb-select component: the declared properties label,
value (backed by the private field value below), name, source and the item
list, plus the hidden input (created on connect), the statically slotted
items and the name/value pairs of the inputs in the subform slot. -/
structure PbSelect where
  label : Option String
  name : Option String
  source : Option String
  valueField : Option String
  items : List Item
  hiddenField : Option HiddenInput
  slotted : List Item
  subformInputs : List (String × String)
deriving DecidableEq, Repr

/-- Constructor of PbSelect: the private value is null and the item list
empty; label, name, source, the slotted items and the subform inputs come
from the surrounding markup. -/
def PbSelect.new (label name source : Option String)
    (slotted : List Item) (subformInputs : List (String × String)) : PbSelect :=
  { label := label, name := name, source := source,
    valueField := none, items := [], hiddenField := none,
    slotted := slotted, subformInputs := subformInputs }

/-- Setter of the value property: stores the new value and, when the
hidden input exists, assigns the same value to it. -/
def PbSelect.setValue (s : PbSelect) (newVal : Option String) : PbSelect :=
  let s1 := { s with valueField := newVal }
  match s1.hiddenField with
  | some h => { s1 with hiddenField := some { h with value := newVal } }
  | none => s1

/-- Getter of the value property. -/
def PbSelect.getValue (s : PbSelect) : Option String := s.valueField

/-- connectedCallback of PbSelect: creates the hidden input of type
hidden, named after the component, valued with the current value and
assigned to the output slot. -/
def PbSelect.connectedCallback (s : PbSelect) : PbSelect :=
  { s with
    hiddenField := some { typ := "hidden", name := s.name, value := s.getValue, slot := "output" } }

/-- The value an enclosing form would submit for this select: the value of
the hidden input, when connected. -/
def PbSelect.submittedValue (s : PbSelect) : Option (Option String) :=
  s.hiddenField.map HiddenInput.value

/-- Handler of the iron-select event: reads the selection of the listbox;
when it equals the hidden input value nothing happens, otherwise the
hidden input is updated and a change event dispatched. Accessing the
hidden input of an unconnected component would fail in the source, which
the embedding renders as none. -/
def PbSelect.changed (s : PbSelect) (selected : Option String) :
    Option (PbSelect × List Event) :=
  match s.hiddenField with
  | none => none
  | some hi =>
    if hi.value = selected then some (s, [])
    else some ({ s with hiddenField := some { hi with value := selected } },
               [Event.changeEvent])

/-- The page context a component lives in: the surrounding pb-page and
the current window location. -/
structure PageContext where
  page : PbPage
  windowLocation : String
deriving DecidableEq, Repr

/-- Modelled from the spec: getEndpoint comes from the mixin file
pb-mixin.js, which is not under src/; the specification states that the
endpoint is established once by the page container and inherited by
descendants via lookup, not by copying, resolved at request time. The
lookup therefore reads the endpoint of the surrounding page. -/
def getEndpoint (ctx : PageContext) : String := ctx.page.endpoint

/-- Base used to resolve a relative source in loadRemote: the window
location when the endpoint is the string ".", otherwise the endpoint
followed by a slash. -/
def resolveBase (endpoint windowLocation : String) : String :=
  if endpoint = "." then windowLocation else endpoint ++ "/"

/-- Boolean test that a string starts with the given pattern, phrased over
the character lists so that it evaluates inside the kernel. -/
def strStartsWith (s pat : String) : Bool := pat.data.isPrefixOf s.data

/-- Resolution of the source against the base, standing in for the URL
constructor of the browser: an absolute source is kept, a relative one is
appended to the base. -/
def resolveURL (source base : String) : String :=
  if strStartsWith source "http://" || strStartsWith source "https://" then source
  else base ++ source

/-- getParameters of PbSelect: joins the name and value of every input of
the subform slot with ampersands; values are taken as already encoded. -/
def PbSelect.getParameters (s : PbSelect) : String :=
  String.intercalate "&" (s.subformInputs.map (fun p => p.1 ++ "=" ++ p.2))

/-- Appends the subform parameters to the url, after an ampersand when the
url already has a query part and after a question mark otherwise. -/
def PbSelect.withParams (s : PbSelect) (url : String) : String :=
  if url.data.contains (Char.ofNat 63) then url ++ "&" ++ s.getParameters
  else url ++ "?" ++ s.getParameters

/-- The URL loadRemote fetches from, built at request time from the source
and the endpoint looked up in the current page context; none when no
source is configured (loadRemote does nothing then). -/
def PbSelect.requestURL (s : PbSelect) (ctx : PageContext) : Option String :=
  s.source.map (fun src =>
    s.withParams (resolveURL src (resolveBase (getEndpoint ctx) ctx.windowLocation)))

/-- Console output produced by loadRemote. -/
inductive LogMsg where
  | loadingFrom (url : String)
  | loadedItems (count : Nat)
  | requestFailed (url : String)
deriving DecidableEq, Repr

/-- An entry of the JSON array a successful fetch returns: fields text and
value, as read by loadRemote. -/
structure JsonItem where
  text : String
  value : String
deriving DecidableEq, Repr

/-- Outcome of the fetch issued by loadRemote: the parsed JSON array on
success, or a failure (network error, non-JSON response) that lands in the
catch handler. -/
inductive SelectFetch where
  | success (json : List JsonItem)
  | failure
deriving DecidableEq, Repr

/-- loadRemote of PbSelect: does nothing without a source; otherwise logs
the request URL and fetches it. On success the statically slotted items
are cleared and the item list replaced by the JSON entries; on failure
only a console error is emitted and the state is left untouched. -/
def PbSelect.loadRemote (s : PbSelect) (ctx : PageContext) (outcome : SelectFetch) :
    PbSelect × List LogMsg :=
  match s.requestURL ctx with
  | none => (s, [])
  | some url =>
    match outcome with
    | SelectFetch.success json =>
        ({ s with slotted := [],
                  items := json.map (fun it => { label := it.text, value := it.value }) },
         [LogMsg.loadingFrom url, LogMsg.loadedItems json.length])
    | SelectFetch.failure =>
        (s, [LogMsg.loadingFrom url, LogMsg.requestFailed url])

/-- Updates the endpoint of the page inside a context, leaving every
component state alone; descendants observe the change only through
getEndpoint lookups. -/
def setEndpoint (ctx : PageContext) (e : String) : PageContext :=
  { ctx with page := { ctx.page with endpoint := e } }

/-- Modelled from the spec: pb-document.js is not under src/. The document
descriptor of section 3 of the specification: id, path, stylesheet (odd),
view mode, XPath selector and optional position; every field can be unset
(the tests pass null for position). -/
structure DocDescriptor where
  docId : Option String
  path : Option String
  odd : Option String
  view : Option String
  xpath : Option String
  position : Option String
deriving DecidableEq, Repr

/-- Modelled from the spec: the partial descriptor carried in the detail
of a pb-refresh event. Each field is either absent (outer none) or
supplied with a value that may itself be null, as the test that sends
position null shows. -/
structure DescriptorPatch where
  docId : Option (Option String)
  path : Option (Option String)
  odd : Option (Option String)
  view : Option (Option String)
  xpath : Option (Option String)
  position : Option (Option String)
deriving DecidableEq, Repr

/-- Modelled from the spec: merge semantics of a refresh event into the
descriptor held by pb-document.js, which is not under src/ — only
supplied fields overwrite, every other field keeps its previous value. -/
def mergeDescriptor (d : DocDescriptor) (p : DescriptorPatch) : DocDescriptor :=
  { docId := p.docId.getD d.docId,
    path := p.path.getD d.path,
    odd := p.odd.getD d.odd,
    view := p.view.getD d.view,
    xpath := p.xpath.getD d.xpath,
    position := p.position.getD d.position }

/-- Modelled from the spec: state of the pb-view component of pb-view.js,
which is not under src/ — the reference to its document (src), the
not-found placeholder text, the append-footnotes flag, and the two content
regions of its shadow DOM (main content and footnotes). -/
structure PbView where
  src : String
  notFound : String
  appendFootnotes : Bool
  content : String
  footnoteRegion : String
deriving DecidableEq, Repr

/-- Modelled from the spec: a source document on the server, with a body
and its footnote markup given as the list of footnotes it contains. -/
structure SourceDoc where
  body : String
  footnotes : List String
deriving DecidableEq, Repr

/-- Modelled from the spec: the markup the secondary footnote fetch
returns, one list element per footnote in the source document; the region
is empty exactly when the document has no footnote markup. -/
def renderFootnotes : List String → String
  | [] => ""
  | f :: rest => "<li>" ++ f ++ "</li>" ++ renderFootnotes rest

/-- Modelled from the spec: how the fetch of a render cycle settles — with
the transformed content and the footnote markup of the source document, or
with a failure such as a non-existent resource. -/
inductive ViewFetch where
  | success (content : String) (footnotes : List String)
  | failure
deriving DecidableEq, Repr

/-- Modelled from the spec: the reaction of pb-view (not under src/) to a
refresh, following the state machine of section 4.3: the fetch settles,
on success the rendered content is replaced wholesale (and in
append-footnotes mode the footnote region is filled from the secondary
fetch), on failure the configured placeholder is rendered; in both cases
the component re-enters idle and emits the terminal pb-end-update event. -/
def PbView.processRefresh (v : PbView) (outcome : ViewFetch) : PbView × List Event :=
  match outcome with
  | ViewFetch.success c fns =>
      ({ v with content := c,
                footnoteRegion :=
                  if v.appendFootnotes then renderFootnotes fns else v.footnoteRegion },
       [Event.pbEndUpdate])
  | ViewFetch.failure =>
      ({ v with content := v.notFound }, [Event.pbEndUpdate])

/-- Modelled from the spec: one full refresh cycle — the pb-refresh detail
is merged into the document descriptor, the dependent viewer re-fetches
and re-renders, and the events of the cycle are collected. -/
def refreshCycle (doc : DocDescriptor) (v : PbView) (p : DescriptorPatch)
    (outcome : ViewFetch) : DocDescriptor × PbView × List Event :=
  let doc2 := mergeDescriptor doc p
  let r := v.processRefresh outcome
  (doc2, r.1, r.2)

/-- Recognises the terminal pb-end-update event. -/
def isEndUpdate : Event → Bool
  | Event.pbEndUpdate => true
  | _ => false

/-- Number of terminal events in a list of emitted events. -/
def countEndUpdate (evs : List Event) : Nat := evs.countP isEndUpdate

/-- A step of the page startup: an event emitted on the bus, or a
descendant component completing its initialization. -/
inductive TraceStep where
  | emit (e : Event)
  | descendantInitDone (name : String)
deriving DecidableEq, Repr

/-- Modelled from the spec: signalReady lives in pb-mixin.js, which is not
under src/; the specification states that descendants complete their own
initialization only after the page-ready signal is available, so the
startup trace first carries the events of connectedCallback of the page
and then the completion of each descendant. -/
def pageStartupTrace (p : PbPage) (descendants : List String) : List TraceStep :=
  p.connectedCallback.2.map TraceStep.emit
    ++ descendants.map TraceStep.descendantInitDone

/-- C1: a refresh cycle over the shared document emits exactly one
terminal pb-end-update event — never zero and never more than one —
whatever the document descriptor, the partial descriptor carried by the
pb-refresh event and the way the fetch settles. -/
theorem refresh_emits_exactly_one_end_update
    (doc : DocDescriptor) (v : PbView) (p : DescriptorPatch) (outcome : ViewFetch) :
    countEndUpdate (refreshCycle doc v p outcome).2.2 = 1 := by
  cases outcome <;> rfl

/-- C2: when the fetch of a render cycle fails — for instance because the
descriptor points at a non-existent remote resource — the cycle still
completes: the content region holds the configured not-found placeholder
and the terminal event is emitted, so the viewer neither throws nor fails
silently. -/
theorem notfound_renders_placeholder (v : PbView) :
    (v.processRefresh ViewFetch.failure).1.content = v.notFound ∧
    (v.processRefresh ViewFetch.failure).2 = [Event.pbEndUpdate] :=
  ⟨rfl, rfl⟩

/-- C5: absence of configuration defaults the endpoint to the current
context — the PbPage constructor sets it to "." and a relative source
resolved against the endpoint "." takes the current window location as
its base. -/
theorem endpoint_defaults_to_current_context :
    PbPage.new.endpoint = "." ∧
    ∀ loc : String, resolveBase PbPage.new.endpoint loc = loc := by
  refine ⟨rfl, fun loc => ?_⟩
  simp [resolveBase, PbPage.new]

/-- A freshly connected select whose value was then set to "a". -/
def c9Start : PbSelect :=
  ((PbSelect.new none (some "sel") none [] []).connectedCallback).setValue (some "a")

/-- The state after the user then selects "b" in the dropdown. -/
def c9Final : PbSelect :=
  match c9Start.changed (some "b") with
  | some r => r.1
  | none => c9Start

/-- C9 counterexample: after connecting, assigning value "a" and then
selecting "b" in the dropdown, the hidden input submits "b" while the
value property still reads "a" — the submitted value does not always
equal the component's current value, because the selection handler
updates the hidden input without updating the value property. -/
theorem submitted_value_can_diverge :
    c9Final.submittedValue = some (some "b") ∧
    c9Final.getValue = some "a" ∧
    ¬ c9Final.submittedValue = some c9Final.getValue := by
  refine ⟨rfl, rfl, by decide⟩

/-- C9 (amended): once a pb-select is connected, every assignment to its
value property also assigns the same value to the hidden input, so right
after such an assignment — and right after connectedCallback itself — the
value submitted via the form equals the component's current value; the
selection handler, however, updates the hidden input without updating the
value property, so the two can diverge until the next assignment. -/
theorem value_assignment_syncs_hidden
    (s t : PbSelect) (v : Option String) (h : s.hiddenField.isSome = true) :
    (s.setValue v).submittedValue = some v ∧
    (s.setValue v).getValue = v ∧
    t.connectedCallback.submittedValue = some t.getValue := by
  obtain ⟨hi, hh⟩ := Option.isSome_iff_exists.mp h
  refine ⟨?_, ?_, rfl⟩ <;>
    simp [PbSelect.setValue, PbSelect.submittedValue, PbSelect.getValue, hh]

/-- Witness for the amended C9 at a concrete connected select. -/
theorem value_assignment_syncs_hidden_witness :
    (((PbSelect.new none none none [] []).connectedCallback).setValue (some "x")).submittedValue
        = some (some "x") ∧
    (((PbSelect.new none none none [] []).connectedCallback).setValue (some "x")).getValue
        = some "x" ∧
    (PbSelect.new none none none [] []).connectedCallback.submittedValue
        = some (PbSelect.new none none none [] []).getValue :=
  value_assignment_syncs_hidden
    ((PbSelect.new none none none [] []).connectedCallback)
    (PbSelect.new none none none [] []) (some "x") rfl

/-- C10: the selection handler dispatches a change event exactly when the
newly selected value differs from the hidden input's current value;
re-selecting the already-current value dispatches no event and changes no
state, while a differing selection updates only the hidden input and
dispatches one change event. -/
theorem change_event_iff_value_differs
    (s : PbSelect) (hi : HiddenInput) (sel : Option String)
    (h : s.hiddenField = some hi) :
    (hi.value = sel → s.changed sel = some (s, [])) ∧
    (¬ hi.value = sel →
      s.changed sel =
        some ({ s with hiddenField := some { hi with value := sel } },
              [Event.changeEvent])) := by
  constructor
  · intro he
    simp [PbSelect.changed, h, he]
  · intro hne
    simp [PbSelect.changed, h, hne]

/-- Witness for C10: on the connected select valued "a", re-selecting "a"
is a no-op and selecting "b" dispatches one change event. -/
theorem change_event_iff_value_differs_witness :
    c9Start.changed (some "a") = some (c9Start, []) ∧
    c9Start.changed (some "b") =
      some ({ c9Start with
                hiddenField := some { typ := "hidden", name := some "sel",
                                      value := some "b", slot := "output" } },
            [Event.changeEvent]) :=
  ⟨(change_event_iff_value_differs c9Start
      { typ := "hidden", name := some "sel", value := some "a", slot := "output" }
      (some "a") rfl).1 rfl,
   (change_event_iff_value_differs c9Start
      { typ := "hidden", name := some "sel", value := some "a", slot := "output" }
      (some "b") rfl).2 (by decide)⟩

/-- C3: merging the partial descriptor of a refresh event updates exactly
the fields the event supplies — a supplied field (even a supplied null)
overwrites, an unsupplied field keeps its previous value — stated for
each of the six descriptor fields. -/
theorem merge_updates_only_supplied (d : DocDescriptor) (p : DescriptorPatch) :
    (p.docId = none → (mergeDescriptor d p).docId = d.docId) ∧
    (∀ w, p.docId = some w → (mergeDescriptor d p).docId = w) ∧
    (p.path = none → (mergeDescriptor d p).path = d.path) ∧
    (∀ w, p.path = some w → (mergeDescriptor d p).path = w) ∧
    (p.odd = none → (mergeDescriptor d p).odd = d.odd) ∧
    (∀ w, p.odd = some w → (mergeDescriptor d p).odd = w) ∧
    (p.view = none → (mergeDescriptor d p).view = d.view) ∧
    (∀ w, p.view = some w → (mergeDescriptor d p).view = w) ∧
    (p.xpath = none → (mergeDescriptor d p).xpath = d.xpath) ∧
    (∀ w, p.xpath = some w → (mergeDescriptor d p).xpath = w) ∧
    (p.position = none → (mergeDescriptor d p).position = d.position) ∧
    (∀ w, p.position = some w → (mergeDescriptor d p).position = w) := by
  refine ⟨fun h => ?_, fun w h => ?_, fun h => ?_, fun w h => ?_, fun h => ?_, fun w h => ?_,
         fun h => ?_, fun w h => ?_, fun h => ?_, fun w h => ?_, fun h => ?_, fun w h => ?_⟩ <;>
    simp [mergeDescriptor, h]

/-- The descriptor of the first test document: document1 at
doc/documentation.xml with stylesheet docbook and view div. -/
def docEx : DocDescriptor :=
  { docId := some "document1", path := some "doc/documentation.xml",
    odd := some "docbook", view := some "div", xpath := none, position := some "1" }

/-- The detail of the third pb-refresh of the test: a new path and
stylesheet, position cleared with an explicit null, nothing else
supplied. -/
def patchEx : DescriptorPatch :=
  { docId := none, path := some (some "test/graves6.xml"),
    odd := some (some "graves"), view := none, xpath := none,
    position := some none }

/-- Witness for C3 at the descriptors of the refresh test: the view field
is retained, the stylesheet is overwritten, the supplied null clears the
position. -/
theorem merge_updates_only_supplied_witness :
    (mergeDescriptor docEx patchEx).view = docEx.view ∧
    (mergeDescriptor docEx patchEx).odd = some "graves" ∧
    (mergeDescriptor docEx patchEx).position = none := by
  have h := merge_updates_only_supplied docEx patchEx
  exact ⟨h.2.2.2.2.2.2.1 rfl, h.2.2.2.2.2.1 (some "graves") rfl,
         h.2.2.2.2.2.2.2.2.2.2.2 none rfl⟩

/-- C4: connectedCallback of pb-page emits the pb-page-ready signal whose
detail carries the endpoint value, and in the page startup trace that
signal precedes the completion of every descendant's initialization. -/
theorem page_ready_signal_before_descendants
    (p : PbPage) (ds : List String) (j : Nat) (nm : String)
    (hj : (pageStartupTrace p ds)[j]? = some (TraceStep.descendantInitDone nm)) :
    p.connectedCallback.2 = [Event.pbPageReady p.endpoint] ∧
    ∃ i, i < j ∧
      (pageStartupTrace p ds)[i]? =
        some (TraceStep.emit (Event.pbPageReady p.endpoint)) := by
  refine ⟨rfl, ?_⟩
  cases j with
  | zero => simp [pageStartupTrace, PbPage.connectedCallback] at hj
  | succ k =>
      exact ⟨0, Nat.succ_pos k, by simp [pageStartupTrace, PbPage.connectedCallback]⟩

/-- Witness for C4 on a fresh page with one descendant viewer. -/
theorem page_ready_signal_before_descendants_witness :
    PbPage.new.connectedCallback.2 = [Event.pbPageReady PbPage.new.endpoint] ∧
    ∃ i, i < 1 ∧
      (pageStartupTrace PbPage.new ["pb-view"])[i]? =
        some (TraceStep.emit (Event.pbPageReady PbPage.new.endpoint)) :=
  page_ready_signal_before_descendants PbPage.new ["pb-view"] 1 "pb-view" rfl

/-- C6: when the remote fetch of loadRemote fails, the component state is
returned unchanged — the previously loaded items, the slotted options and
every other field stay as they were — and the failure surfaces only as
console output; the return carries no error value for callers. -/
theorem remote_failure_leaves_state
    (s : PbSelect) (ctx : PageContext) (url : String)
    (h : s.requestURL ctx = some url) :
    (s.loadRemote ctx SelectFetch.failure).1 = s ∧
    (s.loadRemote ctx SelectFetch.failure).2 =
      [LogMsg.loadingFrom url, LogMsg.requestFailed url] := by
  unfold PbSelect.loadRemote
  rw [h]
  exact ⟨rfl, rfl⟩

/-- A select with a relative source and no subform. -/
def selEx : PbSelect := PbSelect.new none none (some "list.json") [] []

/-- A context whose page keeps the default endpoint. -/
def ctxEx : PageContext := { page := PbPage.new, windowLocation := "http://localhost/app/" }

/-- Witness for C6 at a concrete select and context. -/
theorem remote_failure_leaves_state_witness :
    (selEx.loadRemote ctxEx SelectFetch.failure).1 = selEx ∧
    (selEx.loadRemote ctxEx SelectFetch.failure).2 =
      [LogMsg.loadingFrom "http://localhost/app/list.json?",
       LogMsg.requestFailed "http://localhost/app/list.json?"] :=
  remote_failure_leaves_state selEx ctxEx "http://localhost/app/list.json?" (by decide)

/-- C7: the endpoint is resolved by lookup when the request is built, not
copied at initialization — the same select state produces a request URL
built from the endpoint the surrounding page holds at that moment, so
updating the page endpoint changes the URL of every later request. -/
theorem endpoint_resolved_at_request_time
    (s : PbSelect) (ctx : PageContext) (e2 src : String)
    (hsrc : s.source = some src)
    (h1 : strStartsWith src "http://" = false)
    (h2 : strStartsWith src "https://" = false)
    (hold : ¬ getEndpoint ctx = ".")
    (hnew : ¬ e2 = ".") :
    s.requestURL ctx = some (s.withParams (getEndpoint ctx ++ "/" ++ src)) ∧
    s.requestURL (setEndpoint ctx e2) = some (s.withParams (e2 ++ "/" ++ src)) := by
  have hold2 : ¬ ctx.page.endpoint = "." := hold
  constructor <;>
    simp [PbSelect.requestURL, hsrc, resolveURL, resolveBase, setEndpoint, getEndpoint,
          h1, h2, hold2, hnew]

/-- A select with a relative source used for the C7 witness. -/
def sel7 : PbSelect := PbSelect.new none none (some "api/options.json") [] []

/-- A context whose page endpoint was configured to an absolute URL. -/
def ctx7 : PageContext :=
  { page := { appRoot := none, template := none, endpoint := "http://srv/old" },
    windowLocation := "http://localhost/" }

/-- Witness for C7: the same select resolves against the old endpoint
before the page changes and against the new endpoint afterwards. -/
theorem endpoint_resolved_at_request_time_witness :
    sel7.requestURL ctx7 =
      some (sel7.withParams ("http://srv/old" ++ "/" ++ "api/options.json")) ∧
    sel7.requestURL (setEndpoint ctx7 "http://srv/new") =
      some (sel7.withParams ("http://srv/new" ++ "/" ++ "api/options.json")) := by
  have h := endpoint_resolved_at_request_time sel7 ctx7 "http://srv/new" "api/options.json"
    rfl (by decide) (by decide) (by decide) (by decide)
  exact ⟨h.1, h.2⟩

/-- Helper: the rendered footnote markup is empty exactly when the source
document carries no footnotes. -/
theorem renderFootnotes_eq_empty_iff (l : List String) :
    renderFootnotes l = "" ↔ l = [] := by
  cases l with
  | nil => simp [renderFootnotes]
  | cons f rest =>
    simp only [renderFootnotes]
    constructor
    · intro hcontr
      have hlen := congrArg String.length hcontr
      simp only [String.length_append] at hlen
      have h4 : ("<li>" : String).length = 4 := rfl
      have h5 : ("</li>" : String).length = 5 := rfl
      have h0 : ("" : String).length = 0 := rfl
      rw [h4, h5, h0] at hlen
      omega
    · intro hcontr
      simp at hcontr

/-- C8: in footnote-append mode, after the render cycle completes the
footnote region is non-empty exactly when the source document contains
footnote markup — stated as the equivalent emptiness biconditional. -/
theorem footnote_region_iff_markup
    (v : PbView) (d : SourceDoc) (h : v.appendFootnotes = true) :
    (((v.processRefresh (ViewFetch.success d.body d.footnotes)).1.footnoteRegion = "")
      ↔ d.footnotes = []) := by
  simp [PbView.processRefresh, h, renderFootnotes_eq_empty_iff]

/-- Witness for C8 on the footnote test document, which has one footnote. -/
theorem footnote_region_iff_markup_witness :
    ((({ src := "document1", notFound := "Not found", appendFootnotes := true,
         content := "", footnoteRegion := "" } : PbView).processRefresh
        (ViewFetch.success "body" ["brata"])).1.footnoteRegion = "")
      ↔ (["brata"] : List String) = [] :=
  footnote_region_iff_markup
    { src := "document1", notFound := "Not found", appendFootnotes := true,
      content := "", footnoteRegion := "" }
    { body := "body", footnotes := ["brata"] } rfl
